import Mathlib

/-!
Verification model of the chat session core in
`src/YewChat/src/components/chat.rs`.

The Rust component `Chat` keeps `users : Vec<UserProfile>` and
`messages : Vec<MessageData>` and processes two update messages:
`Msg::HandleMsg(String)` (an inbound websocket frame) and
`Msg::SubmitMessage` (the send button).  Frame decoding is
`serde_json::from_str` followed by the serde-derived deserializers of
`WebSocketMessage` and `MessageData`; both call sites use `.unwrap()`,
so a decode failure is a panic, which the model renders as `none`.
-/

/-! ### JSON values and the textual parser (model of `serde_json::from_str`) -/

/-- A JSON value.  Numbers keep their raw token: no struct field of the
program ever accepts a number, so the numeric value is never inspected. -/
inductive Json where
  | null : Json
  | bool : Bool → Json
  | num : String → Json
  | str : String → Json
  | arr : List Json → Json
  | obj : List (String × Json) → Json
deriving Repr

/-- JSON insignificant whitespace. -/
def jsonWs (c : Char) : Bool := c = ' ' || c = '\t' || c = '\n' || c = '\r'

/-- Drop leading JSON whitespace. -/
def dropWs : List Char → List Char
  | [] => []
  | c :: cs => if jsonWs c then dropWs cs else c :: cs

/-- Value of one hexadecimal digit (code-point arithmetic). -/
def hexNibble (c : Char) : Option Nat :=
  let n := c.toNat
  if 48 ≤ n && n ≤ 57 then some (n - 48)
  else if 97 ≤ n && n ≤ 102 then some (n - 87)
  else if 65 ≤ n && n ≤ 70 then some (n - 55)
  else none

/-- Single-character string escapes. -/
def escChar (c : Char) : Option Char :=
  if c = '\"' then some '\"'
  else if c = '\\' then some '\\'
  else if c = '/' then some '/'
  else if c = 'n' then some '\n'
  else if c = 't' then some '\t'
  else if c = 'r' then some '\r'
  else if c = 'b' then some (Char.ofNat 8)
  else if c = 'f' then some (Char.ofNat 12)
  else none

/-- Read a string body after the opening quote, returning the decoded
characters and the unconsumed rest.  Raw control characters and lone
surrogate escapes are rejected, as `serde_json` rejects them. -/
def strBody : List Char → Option (List Char × List Char)
  | [] => none
  | c :: cs =>
    if c = '\"' then some ([], cs)
    else if c = '\\' then
      match cs with
      | 'u' :: h1 :: h2 :: h3 :: h4 :: cs2 =>
        (match hexNibble h1, hexNibble h2, hexNibble h3, hexNibble h4 with
         | some a, some b, some d, some e =>
           let n := ((a * 16 + b) * 16 + d) * 16 + e
           if 55296 ≤ n && n < 57344 then none
           else (strBody cs2).map (fun p => (Char.ofNat n :: p.1, p.2))
         | _, _, _, _ => none)
      | e :: cs2 =>
        (match escChar e with
         | some d => (strBody cs2).map (fun p => (d :: p.1, p.2))
         | none => none)
      | [] => none
    else if c.toNat < 32 then none
    else (strBody cs).map (fun p => (c :: p.1, p.2))

/-- Optional fraction part of a number token. -/
def fracPart : List Char → Option (List Char × List Char)
  | '.' :: t =>
    let p := t.span Char.isDigit
    if p.1.isEmpty then none else some ('.' :: p.1, p.2)
  | cs => some ([], cs)

/-- Optional exponent part of a number token. -/
def expPart : List Char → Option (List Char × List Char)
  | c :: t =>
    if c = 'e' || c = 'E' then
      let q := (match t with
        | '+' :: r => ((['+'] : List Char), r)
        | '-' :: r => ((['-'] : List Char), r)
        | _ => (([] : List Char), t))
      let p := q.2.span Char.isDigit
      if p.1.isEmpty then none else some (c :: (q.1 ++ p.1), p.2)
    else some ([], c :: t)
  | [] => some ([], [])

/-- Read a full JSON number token (sign, integer part without leading
zeros, optional fraction and exponent), kept as raw text. -/
def numToken (cs : List Char) : Option (String × List Char) :=
  let sg := (match cs with
    | '-' :: t => ((['-'] : List Char), t)
    | _ => (([] : List Char), cs))
  let p := sg.2.span Char.isDigit
  if p.1.isEmpty then none
  else if 1 < p.1.length && p.1.headD ' ' = '0' then none
  else
    match fracPart p.2 with
    | none => none
    | some (fr, cs3) =>
      match expPart cs3 with
      | none => none
      | some (ex, cs4) => some (String.mk (sg.1 ++ p.1 ++ fr ++ ex), cs4)

mutual

/-- Parse one JSON value (fuel-bounded recursion). -/
def jsonVal : Nat → List Char → Option (Json × List Char)
  | 0, _ => none
  | fuel + 1, cs =>
    match dropWs cs with
    | [] => none
    | c :: rest =>
      if c = Char.ofNat 123 then
        match jsonMembers fuel true rest with
        | some (ms, r) => some (Json.obj ms, r)
        | none => none
      else if c = '[' then
        match jsonElems fuel true rest with
        | some (vs, r) => some (Json.arr vs, r)
        | none => none
      else if c = '\"' then
        match strBody rest with
        | some (sl, r) => some (Json.str (String.mk sl), r)
        | none => none
      else if c = 't' then
        match rest with
        | 'r' :: 'u' :: 'e' :: r => some (Json.bool true, r)
        | _ => none
      else if c = 'f' then
        match rest with
        | 'a' :: 'l' :: 's' :: 'e' :: r => some (Json.bool false, r)
        | _ => none
      else if c = 'n' then
        match rest with
        | 'u' :: 'l' :: 'l' :: r => some (Json.null, r)
        | _ => none
      else if c = '-' || c.isDigit then
        match numToken (c :: rest) with
        | some (tok, r) => some (Json.num tok, r)
        | none => none
      else none

/-- Parse array elements after the opening bracket; `first` tells whether
an immediate closing bracket (empty array) is still legal, so a trailing
comma is rejected. -/
def jsonElems : Nat → Bool → List Char → Option (List Json × List Char)
  | 0, _, _ => none
  | fuel + 1, first, cs =>
    match dropWs cs with
    | ']' :: r => if first then some ([], r) else none
    | cs1 =>
      match jsonVal fuel cs1 with
      | none => none
      | some (v, r) =>
        match dropWs r with
        | ',' :: r2 =>
          (match jsonElems fuel false r2 with
           | some (vs, r3) => some (v :: vs, r3)
           | none => none)
        | ']' :: r2 => some ([v], r2)
        | _ => none

/-- Parse object members after the opening brace; `first` as in
`jsonElems`. -/
def jsonMembers : Nat → Bool → List Char → Option (List (String × Json) × List Char)
  | 0, _, _ => none
  | fuel + 1, first, cs =>
    match dropWs cs with
    | [] => none
    | c :: r =>
      if c = Char.ofNat 125 then
        if first then some ([], r) else none
      else if c = '\"' then
        match strBody r with
        | none => none
        | some (kl, r1) =>
          match dropWs r1 with
          | ':' :: r2 =>
            (match jsonVal fuel r2 with
             | none => none
             | some (v, r3) =>
               match dropWs r3 with
               | ',' :: r4 =>
                 (match jsonMembers fuel false r4 with
                  | some (ms, r5) => some ((String.mk kl, v) :: ms, r5)
                  | none => none)
               | d :: r4 =>
                 if d = Char.ofNat 125 then some ([(String.mk kl, v)], r4) else none
               | [] => none)
          | _ => none
      else none

end

/-- Model of `serde_json::from_str` at the `Json` level: one value,
possibly surrounded by whitespace, and nothing else. -/
def parseJson (s : String) : Option Json :=
  match jsonVal (2 * s.length + 8) s.data with
  | some (j, rest) => if (dropWs rest).isEmpty then some j else none
  | none => none

/-! ### Protocol data types (from `chat.rs`) -/

/-- `struct MessageData { from: String, message: String }` (Deserialize). -/
structure MessageData where
  «from» : String
  message : String
deriving Repr, DecidableEq

/-- `enum MsgTypes { Users, Register, Message }`, serialized with
`rename_all = "lowercase"`. -/
inductive MsgTypes where
  | Users : MsgTypes
  | Register : MsgTypes
  | Message : MsgTypes
deriving Repr, DecidableEq

/-- `struct WebSocketMessage`, serialized with `rename_all = "camelCase"`:
fields appear on the wire as `messageType`, `dataArray`, `data`. -/
structure WebSocketMessage where
  message_type : MsgTypes
  data_array : Option (List String)
  data : Option String
deriving Repr, DecidableEq

/-- `struct UserProfile { name: String, avatar: String }`. -/
structure UserProfile where
  name : String
  avatar : String
deriving Repr, DecidableEq

/-! ### Serde-derived decoders, at the `Json` level -/

/-- First value bound to `key`; serde reads fields in order and the
decoders below reject objects that repeat a known key, as serde does. -/
def getField : List (String × Json) → String → Option Json
  | [], _ => none
  | (k, v) :: rest, key => if k = key then some v else getField rest key

/-- Number of members bound to `key`. -/
def keyCount (fields : List (String × Json)) (key : String) : Nat :=
  fields.countP (fun kv => kv.1 == key)

/-- Decode an `Option<String>` field: absent or `null` gives `none`, a
string gives `some`, anything else is a type error. -/
def decodeOptStr (fields : List (String × Json)) (key : String) : Option (Option String) :=
  match getField fields key with
  | none => some none
  | some Json.null => some none
  | some (Json.str s) => some (some s)
  | some _ => none

/-- Every element must be a string (`Vec<String>`). -/
def strItems : List Json → Option (List String)
  | [] => some []
  | Json.str s :: rest => (strItems rest).map (fun l => s :: l)
  | _ => none

/-- Decode an `Option<Vec<String>>` field. -/
def decodeOptStrList (fields : List (String × Json)) (key : String) : Option (Option (List String)) :=
  match getField fields key with
  | none => some none
  | some Json.null => some none
  | some (Json.arr xs) => (strItems xs).map some
  | some _ => none

/-- Decode `MsgTypes` from its lowercase wire literal. -/
def decodeMsgTypes : Json → Option MsgTypes
  | Json.str "users" => some MsgTypes.Users
  | Json.str "register" => some MsgTypes.Register
  | Json.str "message" => some MsgTypes.Message
  | _ => none

/-- Serde-derived `Deserialize` for `WebSocketMessage`: an object with a
required `messageType`, optional `dataArray` and `data`, no repeated
known field; unknown fields are ignored. -/
def decodeWebSocketMessage : Json → Option WebSocketMessage
  | Json.obj fields =>
    if keyCount fields "messageType" ≤ 1 && keyCount fields "dataArray" ≤ 1
        && keyCount fields "data" ≤ 1 then
      match getField fields "messageType" with
      | none => none
      | some jt =>
        match decodeMsgTypes jt with
        | none => none
        | some mt =>
          match decodeOptStrList fields "dataArray" with
          | none => none
          | some da =>
            match decodeOptStr fields "data" with
            | none => none
            | some d => some ⟨mt, da, d⟩
    else none
  | _ => none

/-- Serde-derived `Deserialize` for `MessageData`: both `from` and
`message` are required strings. -/
def decodeMessageData : Json → Option MessageData
  | Json.obj fields =>
    if keyCount fields "from" ≤ 1 && keyCount fields "message" ≤ 1 then
      match getField fields "from", getField fields "message" with
      | some (Json.str f), some (Json.str m) => some ⟨f, m⟩
      | _, _ => none
    else none
  | _ => none

/-- `serde_json::from_str::<WebSocketMessage>` on an inbound frame. -/
def decodeFrame (s : String) : Option WebSocketMessage :=
  match parseJson s with
  | none => none
  | some j => decodeWebSocketMessage j

/-- `serde_json::from_str::<MessageData>` on a `Message` envelope's
nested `data` payload. -/
def decodeChatPayload (s : String) : Option MessageData :=
  match parseJson s with
  | none => none
  | some j => decodeMessageData j

/-! ### Serialization (model of `serde_json::to_string`) -/

/-- Lower-case hexadecimal digit. -/
def hexDigit (n : Nat) : String :=
  (["0", "1", "2", "3", "4", "5", "6", "7", "8", "9",
    "a", "b", "c", "d", "e", "f"].getD n "0")

/-- `serde_json` escaping of one character inside a string literal. -/
def escapeChar (c : Char) : String :=
  if c = '\"' then "\\\""
  else if c = '\\' then "\\\\"
  else if c = '\n' then "\\n"
  else if c = '\t' then "\\t"
  else if c = '\r' then "\\r"
  else if c = Char.ofNat 8 then "\\b"
  else if c = Char.ofNat 12 then "\\f"
  else if c.toNat < 32 then "\\u00" ++ hexDigit (c.toNat / 16) ++ hexDigit (c.toNat % 16)
  else String.singleton c

/-- A JSON string literal for `s`. -/
def encodeStr (s : String) : String :=
  "\"" ++ String.join (s.data.map escapeChar) ++ "\""

/-- `Serialize` for `MsgTypes` (`rename_all = "lowercase"`). -/
def serializeMsgTypes : MsgTypes → String
  | MsgTypes.Users => "users"
  | MsgTypes.Register => "register"
  | MsgTypes.Message => "message"

/-- `serde_json::to_string` for `WebSocketMessage`: compact object in
declaration order `messageType`, `dataArray`, `data`, with `None`
serialized as `null`. -/
def serializeWS (m : WebSocketMessage) : String :=
  "\x7b\"messageType\":" ++ encodeStr (serializeMsgTypes m.message_type)
    ++ ",\"dataArray\":"
    ++ (match m.data_array with
        | none => "null"
        | some l => "[" ++ String.intercalate "," (l.map encodeStr) ++ "]")
    ++ ",\"data\":"
    ++ (match m.data with
        | none => "null"
        | some s => encodeStr s)
    ++ "\x7d"

/-! ### The `Chat` component state machine -/

/-- The avatar URL computed in the `MsgTypes::Users` arm:
`format!("https://avatars.dicebear.com/api/adventurer-neutral/{}.svg", u)`. -/
def avatarUrl (u : String) : String :=
  "https://avatars.dicebear.com/api/adventurer-neutral/" ++ u ++ ".svg"

/-- The `UserProfile` built for one roster name. -/
def mkProfile (u : String) : UserProfile :=
  ⟨u, avatarUrl u⟩

/-- The mutable state of the `Chat` component relevant to `update`:
`users`, `messages`, and the text of the input element referenced by
`chat_input` (`none` models a `NodeRef` that casts to no input element). -/
structure Chat where
  users : List UserProfile
  messages : List MessageData
  chat_input : Option String
deriving Repr, DecidableEq

/-- `enum Msg { HandleMsg(String), SubmitMessage }`. -/
inductive Msg where
  | HandleMsg : String → Msg
  | SubmitMessage : Msg
deriving Repr, DecidableEq

/-- Result of one non-panicking `update` call: the new state, the
returned re-render flag, and the frames handed to `wss.tx.try_send`. -/
structure StepResult where
  state : Chat
  rerender : Bool
  sent : List String
deriving Repr, DecidableEq

/-- `Chat::update`.  `none` models a panic: every decode in the
`HandleMsg` arm goes through `.unwrap()` (`serde_json::from_str(&s)`,
`msg.data.unwrap()`, and the nested `from_str` on the payload), so any
failure there aborts instead of returning.  `try_send` errors are only
logged and do not change behaviour, so `sent` records the frame
unconditionally. -/
def Chat.update (st : Chat) (msg : Msg) : Option StepResult :=
  match msg with
  | Msg.HandleMsg s =>
    match decodeFrame s with
    | none => none
    | some m =>
      match m.message_type with
      | MsgTypes.Users =>
        some ⟨{ st with users := (m.data_array.getD []).map mkProfile }, true, []⟩
      | MsgTypes.Message =>
        (match m.data with
         | none => none
         | some d =>
           match decodeChatPayload d with
           | none => none
           | some md => some ⟨{ st with messages := st.messages ++ [md] }, true, []⟩)
      | _ => some ⟨st, false, []⟩
  | Msg.SubmitMessage =>
    match st.chat_input with
    | none => some ⟨st, false, []⟩
    | some v =>
      some ⟨{ st with chat_input := some "" }, false,
        [serializeWS ⟨MsgTypes.Message, none, some v⟩]⟩

/-- Process a sequence of update messages in order, collecting every
outbound frame; `none` as soon as any step panics. -/
def runMsgs (st : Chat) (ms : List Msg) : Option (Chat × List String) :=
  match ms with
  | [] => some (st, [])
  | m :: rest =>
    match Chat.update st m with
    | none => none
    | some r =>
      match runMsgs r.state rest with
      | none => none
      | some (st2, outs) => some (st2, r.sent ++ outs)

/-- The component state right after `Chat::create`: empty roster, empty
log (the input element is not yet rendered). -/
def chatInit : Chat := ⟨[], [], none⟩

/-- The roster names, in order. -/
def rosterNames (st : Chat) : List String :=
  st.users.map UserProfile.name

/-- The payload a frame contributes to the log: the nested `MessageData`
of a successfully decoded `Message` envelope, and `none` otherwise. -/
def framePayload (s : String) : Option MessageData :=
  match decodeFrame s with
  | some env =>
    (match env.message_type with
     | MsgTypes.Message => env.data.bind decodeChatPayload
     | _ => none)
  | none => none

/-- Whether an update message carries a duplicate-free `dataArray`
whenever it is a decodable `Users` envelope (other messages vacuously). -/
def usersNodupB : Msg → Bool
  | Msg.HandleMsg s =>
    (match decodeFrame s with
     | some env =>
       (match env.message_type with
        | MsgTypes.Users => decide (env.data_array.getD []).Nodup
        | _ => true)
     | none => true)
  | Msg.SubmitMessage => true

/-! ### Concrete frames used as witnesses and counterexamples -/

/-- A well-formed `Users` envelope listing `a`, `b`, `c`. -/
def usersFrameABC : String :=
  "\x7b\"messageType\":\"users\",\"dataArray\":[\"a\",\"b\",\"c\"],\"data\":null\x7d"

/-- A well-formed `Users` envelope listing the same name twice. -/
def usersFrameDup : String :=
  "\x7b\"messageType\":\"users\",\"dataArray\":[\"a\",\"a\"],\"data\":null\x7d"

/-- A `Users` envelope with `dataArray: null`. -/
def usersFrameNullArray : String :=
  "\x7b\"messageType\":\"users\",\"dataArray\":null,\"data\":null\x7d"

/-- A `Users` envelope with no `dataArray` member at all. -/
def usersFrameNoArray : String :=
  "\x7b\"messageType\":\"users\"\x7d"

/-- An envelope whose `messageType` is a kind the client does not know. -/
def pingFrame : String :=
  "\x7b\"messageType\":\"ping\",\"data\":null,\"dataArray\":null\x7d"

/-- A `Register` envelope as echoed back by the server. -/
def registerFrame : String :=
  "\x7b\"messageType\":\"register\",\"data\":\"bob\",\"dataArray\":null\x7d"

/-- A `Message` envelope whose `data` is the JSON text
`\x7b"from":"alice","message":"hello"\x7d`. -/
def msgFrameHello : String :=
  "\x7b\"messageType\":\"message\",\"data\":\"\x7b\\\"from\\\":\\\"alice\\\",\\\"message\\\":\\\"hello\\\"\x7d\",\"dataArray\":null\x7d"

/-- A `Message` envelope whose `data` is the JSON text
`\x7b"from":"bob","message":"woo"\x7d`. -/
def msgFrameWoo : String :=
  "\x7b\"messageType\":\"message\",\"data\":\"\x7b\\\"from\\\":\\\"bob\\\",\\\"message\\\":\\\"woo\\\"\x7d\",\"dataArray\":null\x7d"

/-- A `Message` envelope with no `data` member. -/
def msgFrameNoData : String :=
  "\x7b\"messageType\":\"message\"\x7d"

/-- A `Message` envelope whose `data` is not valid ChatMessage JSON. -/
def msgFrameBadPayload : String :=
  "\x7b\"messageType\":\"message\",\"data\":\"oops\",\"dataArray\":null\x7d"

/-! ### Helper lemmas -/

/-- Unfolding `Chat.update` when the envelope decode fails: the `.unwrap()`
panics. -/
theorem update_decode_none (st : Chat) (s : String) (h : decodeFrame s = none) :
    Chat.update st (Msg.HandleMsg s) = none := by
  simp [Chat.update, h]

/-- Unfolding `Chat.update` on a decoded `Users` envelope. -/
theorem update_users (st : Chat) (s : String) (env : WebSocketMessage)
    (hdec : decodeFrame s = some env) (hty : env.message_type = MsgTypes.Users) :
    Chat.update st (Msg.HandleMsg s) =
      some ⟨{ st with users := (env.data_array.getD []).map mkProfile }, true, []⟩ := by
  simp [Chat.update, hdec, hty]

/-- Unfolding `Chat.update` on a decoded `Register` envelope. -/
theorem update_register (st : Chat) (s : String) (env : WebSocketMessage)
    (hdec : decodeFrame s = some env) (hty : env.message_type = MsgTypes.Register) :
    Chat.update st (Msg.HandleMsg s) = some ⟨st, false, []⟩ := by
  simp [Chat.update, hdec, hty]

/-- Unfolding `Chat.update` on a frame carrying a valid nested payload. -/
theorem update_payload (st : Chat) (s : String) (md : MessageData)
    (h : framePayload s = some md) :
    Chat.update st (Msg.HandleMsg s) =
      some ⟨{ st with messages := st.messages ++ [md] }, true, []⟩ := by
  cases hdec : decodeFrame s with
  | none => simp only [framePayload, hdec] at h; exact absurd h (by simp)
  | some env =>
    simp only [framePayload, hdec] at h
    cases hty : env.message_type with
    | Users => rw [hty] at h; simp at h
    | Register => rw [hty] at h; simp at h
    | Message =>
      rw [hty] at h
      cases hd : env.data with
      | none => rw [hd] at h; simp at h
      | some d =>
        rw [hd] at h
        simp only [Option.some_bind] at h
        simp [Chat.update, hdec, hty, hd, h]

/-! ### Claim C1 -/

/-- Claim C1 as stated is false: on an inbound frame that is not a valid
Envelope, `update` does not drop the frame and continue — the
`serde_json::from_str(&s).unwrap()` on line 89 panics (modelled `none`),
and no subsequent frame of the sequence is processed. -/
theorem c1_counterexample :
    Chat.update chatInit (Msg.HandleMsg "bleh") = none ∧
      runMsgs chatInit [Msg.HandleMsg "bleh", Msg.HandleMsg usersFrameABC] = none := by
  decide

/-- Claim C1 (amended): for every inbound frame whose text fails to
decode as an Envelope, `update` on `Msg::HandleMsg` panics (`none`):
roster and log are not mutated, but the frame is not dropped gracefully
and processing of subsequent frames does not continue. -/
theorem c1_decode_failure_panics (st : Chat) (s : String)
    (h : decodeFrame s = none) :
    Chat.update st (Msg.HandleMsg s) = none ∧
      ∀ rest : List Msg, runMsgs st (Msg.HandleMsg s :: rest) = none := by
  refine ⟨update_decode_none st s h, fun rest => ?_⟩
  simp [runMsgs, update_decode_none st s h]

/-- Witness for C1's amended theorem at the concrete frame `"bleh"`. -/
theorem c1_decode_failure_panics_witness :
    decodeFrame "bleh" = none ∧
      runMsgs chatInit [Msg.HandleMsg "bleh", Msg.HandleMsg usersFrameABC] = none :=
  ⟨by decide,
   (c1_decode_failure_panics chatInit "bleh" (by decide)).2 [Msg.HandleMsg usersFrameABC]⟩

/-! ### Claim C2 -/

/-- Claim C2: a `Users` envelope with `dataArray = l` replaces the
roster wholesale with one `UserProfile` per entry of `l`, named by the
entries in server order; nothing of the prior roster survives. -/
theorem c2_users_replacement (st : Chat) (s : String) (env : WebSocketMessage)
    (l : List String) (hdec : decodeFrame s = some env)
    (hty : env.message_type = MsgTypes.Users) (hda : env.data_array = some l) :
    Chat.update st (Msg.HandleMsg s) =
      some ⟨{ st with users := l.map mkProfile }, true, []⟩ ∧
      (l.map mkProfile).map UserProfile.name = l := by
  refine ⟨?_, ?_⟩
  · rw [update_users st s env hdec hty, hda]
    simp
  · have hcomp : UserProfile.name ∘ mkProfile = id := funext fun u => rfl
    rw [List.map_map, hcomp, List.map_id]

/-- Witness for C2 at the roster `["a", "b", "c"]`. -/
theorem c2_users_replacement_witness :
    Chat.update chatInit (Msg.HandleMsg usersFrameABC) =
      some ⟨{ chatInit with users := ["a", "b", "c"].map mkProfile }, true, []⟩ ∧
      (["a", "b", "c"].map mkProfile).map UserProfile.name = ["a", "b", "c"] :=
  c2_users_replacement chatInit usersFrameABC
    ⟨MsgTypes.Users, some ["a", "b", "c"], none⟩ ["a", "b", "c"]
    (by decide) rfl rfl

/-! ### Claim C4 -/

/-- Claim C4 as stated is false: an envelope whose `messageType` is an
unrecognized kind such as `"ping"` does not leave state unchanged
without raising — `MsgTypes` has no such variant, the envelope decode
fails, and the `.unwrap()` panics (modelled `none`). -/
theorem c4_counterexample :
    Chat.update chatInit (Msg.HandleMsg pingFrame) = none := by
  decide

/-- Claim C4 (amended): an envelope whose `messageType` is not one of
`users`/`register`/`message` fails the Envelope decode, so `update`
panics on it; the only kind that is received and silently dropped with
roster and log unchanged (and no re-render) is `Register`. -/
theorem c4_unknown_kind (st : Chat) (s : String) :
    (decodeFrame s = none → Chat.update st (Msg.HandleMsg s) = none) ∧
      (∀ env : WebSocketMessage, decodeFrame s = some env →
        env.message_type = MsgTypes.Register →
        Chat.update st (Msg.HandleMsg s) = some ⟨st, false, []⟩) :=
  ⟨update_decode_none st s, fun env hdec hty => update_register st s env hdec hty⟩

/-- Witness for C4's amended theorem: the `ping` frame panics, the
`register` frame is a silent no-op. -/
theorem c4_unknown_kind_witness :
    Chat.update chatInit (Msg.HandleMsg pingFrame) = none ∧
      Chat.update chatInit (Msg.HandleMsg registerFrame) = some ⟨chatInit, false, []⟩ :=
  ⟨(c4_unknown_kind chatInit pingFrame).1 (by decide),
   (c4_unknown_kind chatInit registerFrame).2
     ⟨MsgTypes.Register, none, some "bob"⟩ (by decide) rfl⟩

/-! ### Claim C5 -/

/-- Claim C5 as stated is false: a `Message` envelope whose `data` is
absent, or whose `data` is not a valid JSON ChatMessage, is not dropped
without raising — `msg.data.unwrap()` respectively the nested
`serde_json::from_str(..).unwrap()` on lines 107-108 panic. -/
theorem c5_counterexample :
    Chat.update chatInit (Msg.HandleMsg msgFrameNoData) = none ∧
      Chat.update chatInit (Msg.HandleMsg msgFrameBadPayload) = none := by
  decide

/-- Claim C5 (amended): for every `Message` envelope whose `data` field
is absent or is not a valid JSON-encoded ChatMessage, `update` panics
(modelled `none`); roster and log are not mutated, but the frame is not
dropped gracefully. -/
theorem c5_bad_payload_panics (st : Chat) (s : String) (env : WebSocketMessage)
    (hdec : decodeFrame s = some env) (hty : env.message_type = MsgTypes.Message)
    (hbad : env.data.bind decodeChatPayload = none) :
    Chat.update st (Msg.HandleMsg s) = none := by
  cases hd : env.data with
  | none => simp [Chat.update, hdec, hty, hd]
  | some d =>
    rw [hd] at hbad
    simp only [Option.some_bind] at hbad
    simp [Chat.update, hdec, hty, hd, hbad]

/-- Witness for C5's amended theorem at both failure shapes. -/
theorem c5_bad_payload_panics_witness :
    Chat.update chatInit (Msg.HandleMsg msgFrameNoData) = none ∧
      Chat.update chatInit (Msg.HandleMsg msgFrameBadPayload) = none :=
  ⟨c5_bad_payload_panics chatInit msgFrameNoData
     ⟨MsgTypes.Message, none, none⟩ (by decide) rfl rfl,
   c5_bad_payload_panics chatInit msgFrameBadPayload
     ⟨MsgTypes.Message, none, some "oops"⟩ (by decide) rfl (by decide)⟩

/-! ### Claim C10 -/

/-- Claim C10: a `Users` envelope whose `dataArray` is absent or `null`
decodes with `data_array = None`, `unwrap_or_default()` turns it into
the empty list, and the roster is replaced by the empty sequence without
raising. -/
theorem c10_users_missing_dataarray (st : Chat) (s : String)
    (env : WebSocketMessage) (hdec : decodeFrame s = some env)
    (hty : env.message_type = MsgTypes.Users) (hda : env.data_array = none) :
    Chat.update st (Msg.HandleMsg s) = some ⟨{ st with users := [] }, true, []⟩ := by
  rw [update_users st s env hdec hty, hda]
  simp

/-- Witness for C10 at a `null` `dataArray` and at an absent one. -/
theorem c10_users_missing_dataarray_witness :
    Chat.update chatInit (Msg.HandleMsg usersFrameNullArray) =
      some ⟨{ chatInit with users := [] }, true, []⟩ ∧
      Chat.update chatInit (Msg.HandleMsg usersFrameNoArray) =
        some ⟨{ chatInit with users := [] }, true, []⟩ :=
  ⟨c10_users_missing_dataarray chatInit usersFrameNullArray
     ⟨MsgTypes.Users, none, none⟩ (by decide) rfl rfl,
   c10_users_missing_dataarray chatInit usersFrameNoArray
     ⟨MsgTypes.Users, none, none⟩ (by decide) rfl rfl⟩

/-! ### Claim C3 -/

/-- Claim C3: processing a sequence of valid `Message` envelopes appends
their decoded ChatMessage payloads to the log in arrival order — the
prior log is a prefix, nothing is reordered or truncated — and the log
length grows by exactly the number of frames (here all nested payloads
decode, so that is the count of successful decodes). -/
theorem c3_log_append (st : Chat) (frames : List String) (mds : List MessageData)
    (h : List.Forall₂ (fun s md => framePayload s = some md) frames mds) :
    runMsgs st (frames.map Msg.HandleMsg) =
      some ({ st with messages := st.messages ++ mds }, []) ∧
      (st.messages ++ mds).length = st.messages.length + frames.length := by
  constructor
  · induction h generalizing st with
    | nil => simp [runMsgs]
    | cons h1 h2 ih =>
      simp only [List.map_cons, runMsgs, update_payload _ _ _ h1, ih]
      simp
  · have hlen := List.Forall₂.length_eq h
    simp [hlen]

/-- Witness for C3 at two concrete `Message` frames. -/
theorem c3_log_append_witness :
    runMsgs chatInit ([msgFrameHello, msgFrameWoo].map Msg.HandleMsg) =
      some ({ chatInit with
        messages := chatInit.messages ++ [⟨"alice", "hello"⟩, ⟨"bob", "woo"⟩] }, []) ∧
      (chatInit.messages ++ [(⟨"alice", "hello"⟩ : MessageData), ⟨"bob", "woo"⟩]).length =
        chatInit.messages.length + [msgFrameHello, msgFrameWoo].length :=
  c3_log_append chatInit [msgFrameHello, msgFrameWoo]
    [⟨"alice", "hello"⟩, ⟨"bob", "woo"⟩]
    (List.Forall₂.cons (by decide) (List.Forall₂.cons (by decide) List.Forall₂.nil))

/-! ### Claim C6 -/

/-- Claim C6 as stated is false: for the submitted text `"hi"`, the
single outbound frame's `data` field is the raw text `"hi"` itself, not
a JSON-encoded ChatMessage — `"hi"` does not decode as a ChatMessage at
all.  The submit path (lines 117-134) never builds a nested payload. -/
theorem c6_counterexample :
    (Chat.update ⟨[], [], some "hi"⟩ Msg.SubmitMessage).map StepResult.sent =
      some ["\x7b\"messageType\":\"message\",\"dataArray\":null,\"data\":\"hi\"\x7d"] ∧
      decodeFrame "\x7b\"messageType\":\"message\",\"dataArray\":null,\"data\":\"hi\"\x7d" =
        some ⟨MsgTypes.Message, none, some "hi"⟩ ∧
      decodeChatPayload "hi" = none := by
  decide

/-- Claim C6 (amended): for every submit with an input element present
holding text `v` (empty or not), `update` builds a `Message` envelope
whose `data` field is the raw text `v` — no ChatMessage is built and no
nested JSON encoding happens — with `dataArray` null, serializes that
one layer, and passes exactly one such frame to the transport. -/
theorem c6_submit_raw_text (st : Chat) (v : String) (h : st.chat_input = some v) :
    Chat.update st Msg.SubmitMessage =
      some ⟨{ st with chat_input := some "" }, false,
        [serializeWS ⟨MsgTypes.Message, none, some v⟩]⟩ := by
  simp [Chat.update, h]

/-- Witness for C6's amended theorem at the text `"hello"`, with the
serialized frame spelled out. -/
theorem c6_submit_raw_text_witness :
    Chat.update ⟨[], [], some "hello"⟩ Msg.SubmitMessage =
      some ⟨⟨[], [], some ""⟩, false,
        [serializeWS ⟨MsgTypes.Message, none, some "hello"⟩]⟩ ∧
      serializeWS ⟨MsgTypes.Message, none, some "hello"⟩ =
        "\x7b\"messageType\":\"message\",\"dataArray\":null,\"data\":\"hello\"\x7d" :=
  ⟨c6_submit_raw_text ⟨[], [], some "hello"⟩ "hello" rfl, by decide⟩

/-! ### Claim C7 -/

/-- The roster names produced from a `Users` list are that list itself. -/
theorem mkProfile_names (l : List String) :
    (l.map mkProfile).map UserProfile.name = l := by
  have hcomp : UserProfile.name ∘ mkProfile = id := funext fun u => rfl
  rw [List.map_map, hcomp, List.map_id]

/-- One non-panicking `update` step keeps the roster names
duplicate-free, provided a decodable `Users` envelope carries a
duplicate-free `dataArray`. -/
theorem update_keeps_nodup (st : Chat) (m : Msg) (r : StepResult)
    (h : Chat.update st m = some r) (hm : usersNodupB m = true)
    (hn : (rosterNames st).Nodup) : (rosterNames r.state).Nodup := by
  cases m with
  | SubmitMessage =>
    cases hci : st.chat_input with
    | none =>
      simp only [Chat.update, hci, Option.some.injEq] at h
      subst h
      exact hn
    | some v =>
      simp only [Chat.update, hci, Option.some.injEq] at h
      subst h
      exact hn
  | HandleMsg s =>
    cases hdec : decodeFrame s with
    | none =>
      rw [update_decode_none st s hdec] at h
      exact absurd h (by simp)
    | some env =>
      cases hty : env.message_type with
      | Users =>
        rw [update_users st s env hdec hty] at h
        simp only [Option.some.injEq] at h
        subst h
        have hm' : decide (env.data_array.getD []).Nodup = true := by
          simpa only [usersNodupB, hdec, hty] using hm
        have hcomp : UserProfile.name ∘ mkProfile = id := funext fun u => rfl
        simpa [rosterNames, List.map_map, hcomp] using of_decide_eq_true hm'
      | Register =>
        rw [update_register st s env hdec hty] at h
        simp only [Option.some.injEq] at h
        subst h
        exact hn
      | Message =>
        cases hd : env.data with
        | none => simp [Chat.update, hdec, hty, hd] at h
        | some d =>
          cases hp : decodeChatPayload d with
          | none => simp [Chat.update, hdec, hty, hd, hp] at h
          | some md =>
            simp only [Chat.update, hdec, hty, hd, hp, Option.some.injEq] at h
            subst h
            exact hn

/-- Claim C7 as stated is false: the code performs no deduplication, so
a `Users` envelope listing the same name twice produces a roster with
two entries of the same name. -/
theorem c7_counterexample :
    (Chat.update chatInit (Msg.HandleMsg usersFrameDup)).map
        (fun r => rosterNames r.state) = some ["a", "a"] ∧
      ¬ (["a", "a"] : List String).Nodup := by
  decide

/-- Claim C7 (amended): after any sequence of processed update messages
that did not panic, no two roster entries share a name, provided the
roster started duplicate-free and every decodable `Users` envelope in
the sequence carried a duplicate-free `dataArray`; the roster is the
server list verbatim, with no client-side dedup. -/
theorem c7_roster_nodup (st : Chat) (ms : List Msg) (res : Chat × List String)
    (hrun : runMsgs st ms = some res) (hn : (rosterNames st).Nodup)
    (hall : ∀ m ∈ ms, usersNodupB m = true) :
    (rosterNames res.1).Nodup := by
  induction ms generalizing st res with
  | nil =>
    simp only [runMsgs, Option.some.injEq] at hrun
    subst hrun
    exact hn
  | cons m rest ih =>
    simp only [runMsgs] at hrun
    cases hu : Chat.update st m with
    | none => simp [hu] at hrun
    | some r =>
      simp only [hu] at hrun
      cases hr : runMsgs r.state rest with
      | none => simp [hr] at hrun
      | some p =>
        obtain ⟨st2, outs⟩ := p
        simp only [hr, Option.some.injEq] at hrun
        subst hrun
        have hn' := update_keeps_nodup st m r hu (hall m (by simp)) hn
        exact ih r.state (st2, outs) hr hn' (fun m' hm' => hall m' (by simp [hm']))

/-- Witness for C7's amended theorem: one duplicate-free `Users` frame. -/
theorem c7_roster_nodup_witness :
    (rosterNames { chatInit with users := ["a", "b", "c"].map mkProfile }).Nodup :=
  c7_roster_nodup chatInit [Msg.HandleMsg usersFrameABC]
    ({ chatInit with users := ["a", "b", "c"].map mkProfile }, [])
    (by decide) (by decide) (by decide)

/-! ### Claim C8 -/

/-- Claim C8 as stated is false: with the input element present and
holding the empty string, submit still hands one frame (with `data` the
empty string) to the transport — there is no emptiness check in the
`Msg::SubmitMessage` arm. -/
theorem c8_counterexample :
    (Chat.update ⟨[], [], some ""⟩ Msg.SubmitMessage).map StepResult.sent =
      some ["\x7b\"messageType\":\"message\",\"dataArray\":null,\"data\":\"\"\x7d"] := by
  decide

/-- Claim C8 (amended): when the submitted text is empty, submit still
builds and sends one `Message` envelope whose `data` is the empty
string; submit is a no-op (no frame, no state change) only when the
input element itself is absent. -/
theorem c8_empty_submit (st : Chat) :
    (st.chat_input = some "" →
      Chat.update st Msg.SubmitMessage =
        some ⟨st, false, [serializeWS ⟨MsgTypes.Message, none, some ""⟩]⟩) ∧
      (st.chat_input = none →
        Chat.update st Msg.SubmitMessage = some ⟨st, false, []⟩) := by
  constructor
  · intro h
    have he : ({ st with chat_input := some "" } : Chat) = st := by
      cases st
      simp_all
    simp [Chat.update, h, he]
  · intro h
    simp [Chat.update, h]

/-- Witness for C8's amended theorem at both input shapes. -/
theorem c8_empty_submit_witness :
    Chat.update ⟨[], [], some ""⟩ Msg.SubmitMessage =
      some ⟨⟨[], [], some ""⟩, false, [serializeWS ⟨MsgTypes.Message, none, some ""⟩]⟩ ∧
      Chat.update chatInit Msg.SubmitMessage = some ⟨chatInit, false, []⟩ :=
  ⟨(c8_empty_submit ⟨[], [], some ""⟩).1 rfl, (c8_empty_submit chatInit).2 rfl⟩

/-! ### Claim C9 -/

/-- Claim C9: `Msg::SubmitMessage` never touches `users` or `messages`
(it only reads and clears the input element and hands the frame to
`try_send`, whose failure is merely logged), so the log and roster after
any submit equal their pre-call values; the log grows only in the
`Msg::HandleMsg` path. -/
theorem c9_submit_preserves_log_roster (st : Chat) :
    (Chat.update st Msg.SubmitMessage).map
        (fun r => (r.state.users, r.state.messages)) =
      some (st.users, st.messages) := by
  cases h : st.chat_input <;> simp [Chat.update, h]
